import Mathlib

/- Batteries seals the `Rat` field operations; restore definitional
transparency so that closed calculations over exact rationals can be
settled by `rfl`/`decide`. -/
unseal Rat.mul Rat.add Rat.sub Rat.inv

/-!
Verification of the time-calculation engine of the Anime_Taimu repository
(`src/scripts/time-calculator.js`, provided as `src/unnamed/part_006`).

The JavaScript is shallowly embedded: JS numbers become an inductive `JSNum`
over exact rationals plus `NaN`/`±Infinity`, JS values become `JSVal`
(undefined, null, booleans, numbers, strings, and plain objects as field
lists), and the stateful calculator session becomes an explicit state type
with a step function that also returns the notifications delivered to
observers during the step and whether the calculation function was invoked.
-/

/-- A JavaScript number: NaN, +Infinity, -Infinity, or a finite value
modelled as an exact rational. -/
inductive JSNum : Type
  | nan : JSNum
  | posInf : JSNum
  | negInf : JSNum
  | fin : ℚ → JSNum
  deriving DecidableEq, Repr

/-- A JavaScript value as used by the time-calculator module: `undefined`,
`null`, a boolean, a number, a string, or a plain object given by its own
enumerable string-keyed fields. -/
inductive JSVal : Type
  | undef : JSVal
  | null : JSVal
  | bool : Bool → JSVal
  | num : JSNum → JSVal
  | str : String → JSVal
  | obj : List (String × JSVal) → JSVal

namespace JSNum

/-- JS `x < c` against a finite constant: comparisons with NaN are false. -/
def ltQ : JSNum → ℚ → Bool
  | nan, _ => false
  | posInf, _ => false
  | negInf, _ => true
  | fin a, c => decide (a < c)

/-- JS `x > c` against a finite constant: comparisons with NaN are false. -/
def gtQ : JSNum → ℚ → Bool
  | nan, _ => false
  | posInf, _ => true
  | negInf, _ => false
  | fin a, c => decide (c < a)

/-- JS `x <= c` against a finite constant: comparisons with NaN are false. -/
def leQ : JSNum → ℚ → Bool
  | nan, _ => false
  | posInf, _ => false
  | negInf, _ => true
  | fin a, c => decide (a ≤ c)

/-- JS strict equality `x === c` against a finite constant (`NaN === c` is
false). -/
def eqQ : JSNum → ℚ → Bool
  | fin a, c => decide (a = c)
  | _, _ => false

/-- JS multiplication on numbers. -/
def mul : JSNum → JSNum → JSNum
  | nan, _ => nan
  | _, nan => nan
  | posInf, posInf => posInf
  | posInf, negInf => negInf
  | negInf, posInf => negInf
  | negInf, negInf => posInf
  | posInf, fin b => if b = 0 then nan else if 0 < b then posInf else negInf
  | fin a, posInf => if a = 0 then nan else if 0 < a then posInf else negInf
  | negInf, fin b => if b = 0 then nan else if 0 < b then negInf else posInf
  | fin a, negInf => if a = 0 then nan else if 0 < a then negInf else posInf
  | fin a, fin b => fin (a * b)

/-- JS addition on numbers. -/
def add : JSNum → JSNum → JSNum
  | nan, _ => nan
  | _, nan => nan
  | posInf, negInf => nan
  | negInf, posInf => nan
  | posInf, _ => posInf
  | _, posInf => posInf
  | negInf, _ => negInf
  | _, negInf => negInf
  | fin a, fin b => fin (a + b)

/-- JS division on numbers (the module only divides by the literal 60). -/
def div : JSNum → JSNum → JSNum
  | nan, _ => nan
  | _, nan => nan
  | posInf, posInf => nan
  | posInf, negInf => nan
  | negInf, posInf => nan
  | negInf, negInf => nan
  | posInf, fin b => if b = 0 then posInf else if 0 < b then posInf else negInf
  | negInf, fin b => if b = 0 then negInf else if 0 < b then negInf else posInf
  | fin _, posInf => fin 0
  | fin _, negInf => fin 0
  | fin a, fin b =>
      if b = 0 then (if a = 0 then nan else if 0 < a then posInf else negInf)
      else fin (a / b)

/-- Truncation toward zero, as used by the JS `%` operator. -/
def ratTrunc (q : ℚ) : ℤ := if 0 ≤ q then q.floor else q.ceil

/-- JS remainder `a % b` (sign of the dividend, truncated division). -/
def mod : JSNum → JSNum → JSNum
  | nan, _ => nan
  | _, nan => nan
  | posInf, _ => nan
  | negInf, _ => nan
  | fin a, posInf => fin a
  | fin a, negInf => fin a
  | fin a, fin b =>
      if b = 0 then nan else fin (a - b * (ratTrunc (a / b) : ℚ))

/-- JS `Math.round`: round half toward positive infinity. -/
def round : JSNum → JSNum
  | nan => nan
  | posInf => posInf
  | negInf => negInf
  | fin q => fin ((q + 1/2).floor : ℤ)

/-- JS `Math.floor`. -/
def floor : JSNum → JSNum
  | nan => nan
  | posInf => posInf
  | negInf => negInf
  | fin q => fin (q.floor : ℤ)

/-- Decimal rendering of a rational with a terminating decimal expansion
(every JS float is such a rational); falls back to the raw rational
rendering otherwise. -/
def ratDecimalString (q : ℚ) : String :=
  if q.den = 1 then toString q.num
  else
    match (List.range 120).find? (fun k => (q * (10 : ℚ) ^ k).den = 1) with
    | some k =>
        let n : ℤ := (q * (10 : ℚ) ^ k).num
        let sign := if n < 0 then "-" else ""
        let digits := toString n.natAbs
        let digits := if digits.length ≤ k then
            String.mk (List.replicate (k + 1 - digits.length) '0') ++ digits
          else digits
        let ipart := digits.take (digits.length - k)
        let fpart := digits.drop (digits.length - k)
        sign ++ ipart ++ "." ++ fpart
    | none => toString q

/-- JS number-to-string conversion (`String(n)`, template literals). -/
def toStr : JSNum → String
  | nan => "NaN"
  | posInf => "Infinity"
  | negInf => "-Infinity"
  | fin q => ratDecimalString q

end JSNum

namespace JSStr

/-- Whitespace stripped by the JS ToNumber conversion of strings. -/
def isWs (c : Char) : Bool :=
  c = ' ' || c = '\t' || c = '\n' || c = '\r' || c = '\x0b' || c = '\x0c'

/-- Trim leading and trailing whitespace from a character list. -/
def trimWs (l : List Char) : List Char :=
  ((l.dropWhile isWs).reverse.dropWhile isWs).reverse

/-- Value of a digit character in a given base, if valid. -/
def digitVal (base : ℕ) (c : Char) : Option ℕ :=
  let v :=
    if '0' ≤ c ∧ c ≤ '9' then some (c.toNat - 48)
    else if 'a' ≤ c ∧ c ≤ 'f' then some (c.toNat - 87)
    else if 'A' ≤ c ∧ c ≤ 'F' then some (c.toNat - 55)
    else none
  match v with
  | some n => if n < base then some n else none
  | none => none

/-- Read a non-empty run of digits in the given base. -/
def digitsToNat (base : ℕ) : List Char → Option ℕ
  | [] => none
  | l => l.foldl
      (fun acc c =>
        match acc, digitVal base c with
        | some n, some d => some (n * base + d)
        | _, _ => none)
      (some 0)

/-- Split a character list at the first exponent marker `e`/`E`. -/
def splitExp : List Char → List Char × Option (List Char)
  | [] => ([], none)
  | c :: rest =>
      if c = 'e' ∨ c = 'E' then ([], some rest)
      else
        let (m, e) := splitExp rest
        (c :: m, e)

/-- Split a character list at the first decimal point. -/
def splitDot : List Char → List Char × Option (List Char)
  | [] => ([], none)
  | c :: rest =>
      if c = '.' then ([], some rest)
      else
        let (m, e) := splitDot rest
        (c :: m, e)

/-- Parse an unsigned decimal numeric literal (`123`, `1.5`, `.5`, `1.`,
`1e3`, `2.5E-2`) to an exact rational. -/
def parseDec (l : List Char) : Option ℚ :=
  let (mant, expPart) := splitExp l
  let (ip, fp?) := splitDot mant
  let fp := fp?.getD []
  if ip = [] ∧ fp = [] then none
  else
    let ipVal? : Option ℕ := if ip = [] then some 0 else digitsToNat 10 ip
    let fpVal? : Option ℕ := if fp = [] then some 0 else digitsToNat 10 fp
    let exp? : Option ℤ :=
      match expPart with
      | none => some 0
      | some ('+' :: ds) => (digitsToNat 10 ds).map (Int.ofNat)
      | some ('-' :: ds) => (digitsToNat 10 ds).map (fun n => -(n : ℤ))
      | some ds => (digitsToNat 10 ds).map (Int.ofNat)
    match ipVal?, fpVal?, exp? with
    | some i, some f, some e =>
        some ((((i : ℚ) * (10 : ℚ) ^ fp.length + (f : ℚ)) / (10 : ℚ) ^ fp.length)
          * (10 : ℚ) ^ e)
    | _, _, _ => none

/-- JS ToNumber on strings: trimmed empty string is 0; hex/octal/binary
prefixes; optional sign; `Infinity`; decimal literals; anything else NaN. -/
def toNumber (s : String) : JSNum :=
  let l := trimWs s.toList
  match l with
  | [] => .fin 0
  | '0' :: 'x' :: rest => match digitsToNat 16 rest with
      | some n => .fin n
      | none => .nan
  | '0' :: 'X' :: rest => match digitsToNat 16 rest with
      | some n => .fin n
      | none => .nan
  | '0' :: 'o' :: rest => match digitsToNat 8 rest with
      | some n => .fin n
      | none => .nan
  | '0' :: 'O' :: rest => match digitsToNat 8 rest with
      | some n => .fin n
      | none => .nan
  | '0' :: 'b' :: rest => match digitsToNat 2 rest with
      | some n => .fin n
      | none => .nan
  | '0' :: 'B' :: rest => match digitsToNat 2 rest with
      | some n => .fin n
      | none => .nan
  | _ =>
      let (sgn, body) : ℚ × List Char :=
        match l with
        | '+' :: r => (1, r)
        | '-' :: r => (-1, r)
        | r => (1, r)
      if body = "Infinity".toList then
        (if sgn = 1 then .posInf else .negInf)
      else
        match parseDec body with
        | some q => .fin (sgn * q)
        | none => .nan

end JSStr

namespace JSVal

/-- JS truthiness (`Boolean(v)`, `if (v)`). -/
def truthy : JSVal → Bool
  | undef => false
  | null => false
  | bool b => b
  | num .nan => false
  | num (.fin q) => decide (q ≠ 0)
  | num _ => true
  | str s => decide (s ≠ "")
  | obj _ => true

/-- `typeof v === 'number'`. -/
def isNumber : JSVal → Bool
  | num _ => true
  | _ => false

/-- `v && typeof v === 'object'`: a truthy object (`typeof null` is
`'object'` but `null` is falsy). -/
def isObject : JSVal → Bool
  | obj _ => true
  | _ => false

/-- `v === undefined`. -/
def isUndef : JSVal → Bool
  | undef => true
  | _ => false

/-- `v === null`. -/
def isNull : JSVal → Bool
  | null => true
  | _ => false

/-- JS ToNumber of an arbitrary value (plain objects convert through
`"[object Object]"`, hence NaN). -/
def toNumber : JSVal → JSNum
  | undef => .nan
  | null => .fin 0
  | bool b => .fin (if b then 1 else 0)
  | num n => n
  | str s => JSStr.toNumber s
  | obj _ => .nan

/-- Property read `v.name`: last-written field of an object, `undefined`
otherwise (the module never reads index properties of primitives). -/
def getField (v : JSVal) (name : String) : JSVal :=
  match v with
  | obj fs => (fs.foldl (fun acc p => if p.1 = name then some p.2 else acc) none).getD undef
  | _ => undef

/-- Whether an object has an own field of the given name (used for the
object-spread in the session constructor). -/
def hasField (v : JSVal) (name : String) : Bool :=
  match v with
  | obj fs => fs.any (fun p => p.1 = name)
  | _ => false

/-- JS `v < c` for a finite numeric constant `c` (ToNumber then compare). -/
def ltQ (v : JSVal) (c : ℚ) : Bool := (toNumber v).ltQ c

/-- JS `v > c` for a finite numeric constant `c` (ToNumber then compare). -/
def gtQ (v : JSVal) (c : ℚ) : Bool := (toNumber v).gtQ c

/-- JS `v <= c` for a finite numeric constant `c` (ToNumber then compare). -/
def leQ (v : JSVal) (c : ℚ) : Bool := (toNumber v).leQ c

/-- JS strict equality `v === c` for a finite numeric constant `c`. -/
def eqQ (v : JSVal) (c : ℚ) : Bool :=
  match v with
  | num n => n.eqQ c
  | _ => false

/-- JS `a || b`. -/
def orElse (a b : JSVal) : JSVal := if truthy a then a else b

end JSVal

/-! ### The time-calculation engine (`time-calculator.js`) -/

/-- `OPENING_THEME_DURATION = 1.5` minutes. -/
def OPENING_THEME_DURATION : ℚ := 3 / 2

/-- `ENDING_THEME_DURATION = 1.5` minutes. -/
def ENDING_THEME_DURATION : ℚ := 3 / 2

/-- `DEFAULT_EPISODE_DURATION = 24` minutes. -/
def DEFAULT_EPISODE_DURATION : ℚ := 24

/-- `validateCalculationInput(options)`: `none` when valid, otherwise the
error message of the first failing check, in source order. -/
def validateCalculationInput (options : JSVal) : Option String :=
  if !(options.truthy && options.isObject) then
    some "Invalid calculation options provided"
  else
    let episodes := options.getField "episodes"
    let episodeDuration := options.getField "episodeDuration"
    if !episodes.isNumber || episodes.ltQ 0 then
      some "Episodes must be a non-negative number"
    else if episodes.eqQ 0 then
      some "Cannot calculate time for anime with 0 episodes"
    else if (!episodeDuration.isUndef && !episodeDuration.isNull) &&
        (!episodeDuration.isNumber || episodeDuration.leQ 0) then
      some "Episode duration must be a positive number"
    else if episodes.gtQ 10000 then
      some "Episode count exceeds reasonable limit (10,000 episodes)"
    else if episodeDuration.gtQ 1440 then
      some "Episode duration exceeds reasonable limit (24 hours)"
    else
      none

/-- The body of `formatTime` from the `Math.round` result on: renders a
rounded minute count (lines 101–123 of the source). -/
def formatRounded (roundedMinutes : JSNum) : String :=
  if roundedMinutes.ltQ 60 then
    if roundedMinutes.eqQ 1 then "1 minute"
    else roundedMinutes.toStr ++ " minutes"
  else
    let hours := (roundedMinutes.div (.fin 60)).floor
    let minutes := roundedMinutes.mod (.fin 60)
    let result :=
      if hours.gtQ 0 then
        if hours.eqQ 1 then "1 hour" else hours.toStr ++ " hours"
      else ""
    let result :=
      if minutes.gtQ 0 then
        (if result ≠ "" then result ++ " " else result) ++
          (if minutes.eqQ 1 then "1 minute" else minutes.toStr ++ " minutes")
      else result
    if result = "" then "0 minutes" else result

/-- `formatTime(totalMinutes)`: human-readable rendering of a minute
count; non-numbers and negative numbers render as `"0 minutes"`. -/
def formatTime (totalMinutes : JSVal) : String :=
  if ¬ totalMinutes.isNumber ∨ totalMinutes.ltQ 0 then "0 minutes"
  else formatRounded (totalMinutes.toNumber).round

/-- The `breakdown` record assembled by `calculateWatchTime`. -/
structure TimeBreakdown where
  episodes : JSVal
  episodeDuration : JSNum
  baseTime : String
  openingTime : Option String
  endingTime : Option String
  includeOpening : JSVal
  includeEnding : JSVal

/-- The result record of `calculateWatchTime`. -/
structure TimeCalculationResult where
  baseMinutes : JSNum
  openingMinutes : JSNum
  endingMinutes : JSNum
  totalMinutes : JSNum
  formattedTime : String
  breakdown : TimeBreakdown

/-- `calculateWatchTime(options)`: validates, then computes the base,
opening, ending and total minute counts and their formatted renderings;
throwing the validation error is modelled as `Except.error`. -/
def calculateWatchTime (options : JSVal) : Except String TimeCalculationResult :=
  match validateCalculationInput options with
  | some err => .error err
  | none =>
      let episodes := options.getField "episodes"
      let episodeDuration := options.getField "episodeDuration"
      -- destructuring defaults `includeOpening = false` replace only `undefined`
      let includeOpening :=
        if (options.getField "includeOpening").isUndef then .bool false
        else options.getField "includeOpening"
      let includeEnding :=
        if (options.getField "includeEnding").isUndef then .bool false
        else options.getField "includeEnding"
      let finalEpisodeDuration : JSNum :=
        if episodeDuration.isNumber ∧ episodeDuration.gtQ 0 then
          episodeDuration.toNumber
        else .fin DEFAULT_EPISODE_DURATION
      let epN := episodes.toNumber
      let baseMinutes := epN.mul finalEpisodeDuration
      let openingMinutes :=
        if includeOpening.truthy then epN.mul (.fin OPENING_THEME_DURATION)
        else .fin 0
      let endingMinutes :=
        if includeEnding.truthy then epN.mul (.fin ENDING_THEME_DURATION)
        else .fin 0
      let totalMinutes := (baseMinutes.add openingMinutes).add endingMinutes
      let formattedTime := formatTime (.num totalMinutes)
      .ok
        { baseMinutes := baseMinutes
          openingMinutes := openingMinutes
          endingMinutes := endingMinutes
          totalMinutes := totalMinutes
          formattedTime := formattedTime
          breakdown :=
            { episodes := episodes
              episodeDuration := finalEpisodeDuration
              baseTime := formatTime (.num baseMinutes)
              openingTime :=
                if includeOpening.truthy then some (formatTime (.num openingMinutes))
                else none
              endingTime :=
                if includeEnding.truthy then some (formatTime (.num endingMinutes))
                else none
              includeOpening := includeOpening
              includeEnding := includeEnding } }

/-- `canCalculateTime(animeData)`. -/
def canCalculateTime (animeData : JSVal) : Bool :=
  if ¬ (animeData.truthy ∧ animeData.isObject) then false
  else (animeData.getField "episodes").isNumber ∧ (animeData.getField "episodes").gtQ 0

/-! ### The calculator session (`createTimeCalculator`)

Listeners (always functions in this model) are identified by natural
numbers; invoking a listener is modelled as emitting a `Notification`.
A listener callback that itself throws is caught by the source
(`try { listener(...) } catch`), so a faulty callback can neither change
the session state nor alter which notifications are delivered; hence the
emitted-notification list is a faithful record of the invocations. -/

/-- The `currentOptions` record of a session (the constructor fixes exactly
these four fields; later code only reassigns them). -/
structure CurrentOptions where
  episodes : JSVal
  episodeDuration : JSVal
  includeOpening : JSVal
  includeEnding : JSVal

/-- One listener invocation: `listener(result, options)` or
`listener(result, options, errorMessage)`. `errMsg = none` means the call
had no third argument. -/
structure Notification where
  listener : ℕ
  result : Option TimeCalculationResult
  options : CurrentOptions
  errMsg : Option String

/-- The mutable state captured by the `createTimeCalculator` closure. -/
structure SessionState where
  currentOptions : CurrentOptions
  currentResult : Option TimeCalculationResult
  changeListeners : List ℕ

/-- `currentOptions` as the JS object value passed to `calculateWatchTime`. -/
def CurrentOptions.toVal (o : CurrentOptions) : JSVal :=
  .obj [("episodes", o.episodes), ("episodeDuration", o.episodeDuration),
        ("includeOpening", o.includeOpening), ("includeEnding", o.includeEnding)]

/-- The baseline options: `episodes=0, episodeDuration=24, flags false`. -/
def baselineOptions : CurrentOptions :=
  { episodes := .num (.fin 0)
    episodeDuration := .num (.fin DEFAULT_EPISODE_DURATION)
    includeOpening := .bool false
    includeEnding := .bool false }

/-- Constructor field initialisation `{ ...defaults, ...initialOptions }`:
a field present on `initialOptions` overrides the default. -/
def initField (initialOptions : JSVal) (name : String) (dflt : JSVal) : JSVal :=
  if initialOptions.hasField name then initialOptions.getField name else dflt

/-- `createTimeCalculator(initialOptions)`: merges the initial options over
the baseline, starts with `currentResult = null` and no listeners, and
performs no calculation and no notification. -/
def createTimeCalculator (initialOptions : JSVal) : SessionState :=
  { currentOptions :=
      { episodes := initField initialOptions "episodes" (.num (.fin 0))
        episodeDuration :=
          initField initialOptions "episodeDuration" (.num (.fin DEFAULT_EPISODE_DURATION))
        includeOpening := initField initialOptions "includeOpening" (.bool false)
        includeEnding := initField initialOptions "includeEnding" (.bool false) }
    currentResult := none
    changeListeners := [] }

/-- `getCurrentResult()`. -/
def getCurrentResult (s : SessionState) : Option TimeCalculationResult :=
  s.currentResult

/-- `getCurrentOptions()` (a copy of the live record). -/
def getCurrentOptions (s : SessionState) : CurrentOptions :=
  s.currentOptions

/-- The inner `recalculate()`: returns the new state, the notifications
delivered to the listeners in registration order, and whether
`calculateWatchTime` was invoked. -/
def recalculate (s : SessionState) :
    SessionState × List Notification × Bool :=
  if s.currentOptions.episodes.gtQ 0 then
    match calculateWatchTime s.currentOptions.toVal with
    | .ok r =>
        ({ s with currentResult := some r },
          s.changeListeners.map (fun l =>
            { listener := l, result := some r, options := s.currentOptions,
              errMsg := none }),
          true)
    | .error msg =>
        ({ s with currentResult := none },
          s.changeListeners.map (fun l =>
            { listener := l, result := none, options := s.currentOptions,
              errMsg := some msg }),
          true)
  else
    ({ s with currentResult := none },
      s.changeListeners.map (fun l =>
        { listener := l, result := none, options := s.currentOptions,
          errMsg := none }),
      false)

/-- The operations a caller can perform on a session. -/
inductive SessionOp : Type
  | updateAnime (animeData : JSVal)
  | setIncludeOpening (include' : JSVal)
  | setIncludeEnding (include' : JSVal)
  | setThemeInclusion (includeOpening includeEnding : JSVal)
  | recalculateOp
  | reset
  | addChangeListener (l : ℕ)
  | removeChangeListener (l : ℕ)

/-- `removeChangeListener`'s `indexOf`/`splice(index, 1)`: remove the first
occurrence, no-op when absent. -/
def removeFirst (l : ℕ) : List ℕ → List ℕ
  | [] => []
  | x :: xs => if x = l then xs else x :: removeFirst l xs

/-- The option mutation performed by a recalculation-triggering operation,
before `recalculate()` runs; identity for the non-mutating operations. -/
def applyMutation (s : SessionState) : SessionOp → SessionState
  | .updateAnime animeData =>
      { s with currentOptions :=
          { s.currentOptions with
            episodes := (animeData.getField "episodes").orElse (.num (.fin 0))
            episodeDuration :=
              (animeData.getField "duration").orElse
                (.num (.fin DEFAULT_EPISODE_DURATION)) } }
  | .setIncludeOpening include' =>
      { s with currentOptions :=
          { s.currentOptions with includeOpening := .bool include'.truthy } }
  | .setIncludeEnding include' =>
      { s with currentOptions :=
          { s.currentOptions with includeEnding := .bool include'.truthy } }
  | .setThemeInclusion io ie =>
      { s with currentOptions :=
          { s.currentOptions with
            includeOpening := .bool io.truthy
            includeEnding := .bool ie.truthy } }
  | _ => s

/-- Whether an operation reaches the inner `recalculate()` call
(`updateAnime` only does for a truthy object argument). -/
def opTriggersRecalc : SessionOp → Bool
  | .updateAnime animeData => animeData.truthy ∧ animeData.isObject
  | .setIncludeOpening _ => true
  | .setIncludeEnding _ => true
  | .setThemeInclusion _ _ => true
  | .recalculateOp => true
  | _ => false

/-- One session operation: the new state, the notifications delivered
during the call (in delivery order), and whether `calculateWatchTime` was
invoked. Every operation is a total function: no failure escapes to the
caller. -/
def step (s : SessionState) (op : SessionOp) :
    SessionState × List Notification × Bool :=
  match op with
  | .updateAnime animeData =>
      if animeData.truthy ∧ animeData.isObject then
        recalculate (applyMutation s (.updateAnime animeData))
      else (s, [], false)
  | .setIncludeOpening i => recalculate (applyMutation s (.setIncludeOpening i))
  | .setIncludeEnding i => recalculate (applyMutation s (.setIncludeEnding i))
  | .setThemeInclusion io ie => recalculate (applyMutation s (.setThemeInclusion io ie))
  | .recalculateOp => recalculate s
  | .reset =>
      ({ currentOptions := baselineOptions, currentResult := none,
         changeListeners := s.changeListeners },
        s.changeListeners.map (fun l =>
          { listener := l, result := none, options := baselineOptions,
            errMsg := none }),
        false)
  | .addChangeListener l =>
      ({ s with changeListeners := s.changeListeners ++ [l] },
        [{ listener := l, result := s.currentResult, options := s.currentOptions,
           errMsg := none }],
        false)
  | .removeChangeListener l =>
      ({ s with changeListeners := removeFirst l s.changeListeners }, [], false)

/-- Run a list of operations from a state, concatenating the notifications
delivered along the way. -/
def runOps (s : SessionState) : List SessionOp → SessionState × List Notification
  | [] => (s, [])
  | op :: rest =>
      let r := step s op
      let r' := runOps r.1 rest
      (r'.1, r.2.1 ++ r'.2)

/-- The session states reachable from some construction by a sequence of
operations. -/
inductive Reachable : SessionState → Prop
  | init (initialOptions : JSVal) : Reachable (createTimeCalculator initialOptions)
  | step (s : SessionState) (op : SessionOp) :
      Reachable s → Reachable (step s op).1

/-! ### Specification-side definitions used to state the claims -/

/-- A fully numeric/boolean options object, as quantified over by the
total-formula claim. -/
def mkOptions (e d : ℚ) (io ie : Bool) : JSVal :=
  .obj [("episodes", .num (.fin e)), ("episodeDuration", .num (.fin d)),
        ("includeOpening", .bool io), ("includeEnding", .bool ie)]

/-- The failure message of `calculateWatchTime`, when it fails. -/
def calcFailure (options : JSVal) : Option String :=
  match calculateWatchTime options with
  | .error msg => some msg
  | .ok _ => none

/-- The spec's taxonomy of the six distinct validation error conditions. -/
inductive ValidationError : Type
  | InvalidInput
  | InvalidEpisodeCount
  | ZeroEpisodes
  | InvalidEpisodeDuration
  | EpisodeCountTooLarge
  | EpisodeDurationTooLarge
  deriving DecidableEq, Repr

/-- The error message the code reports for each error condition. -/
def ValidationError.message : ValidationError → String
  | .InvalidInput => "Invalid calculation options provided"
  | .InvalidEpisodeCount => "Episodes must be a non-negative number"
  | .ZeroEpisodes => "Cannot calculate time for anime with 0 episodes"
  | .InvalidEpisodeDuration => "Episode duration must be a positive number"
  | .EpisodeCountTooLarge => "Episode count exceeds reasonable limit (10,000 episodes)"
  | .EpisodeDurationTooLarge => "Episode duration exceeds reasonable limit (24 hours)"

/-- Claim condition 1: the input is not an object. -/
def condInvalidInput (v : JSVal) : Bool := !v.isObject

/-- Claim condition 2: `episodes` is not a number or is `< 0`. -/
def condInvalidEpisodeCount (v : JSVal) : Bool :=
  !(v.getField "episodes").isNumber || (v.getField "episodes").ltQ 0

/-- Claim condition 3: `episodes` is exactly 0. -/
def condZeroEpisodes (v : JSVal) : Bool := (v.getField "episodes").eqQ 0

/-- The claim's literal condition 4: `episodeDuration` is present
(not absent/null) but is not a positive number. -/
def condDurationNotPositiveNumber (v : JSVal) : Bool :=
  let d := v.getField "episodeDuration"
  (!d.isUndef && !d.isNull) && !(d.isNumber && d.gtQ 0)

/-- Amended condition 4: `episodeDuration` is present (not absent/null)
and is either not a number or compares `≤ 0` (so a NaN duration, which is
neither positive nor `≤ 0`, is accepted rather than rejected). -/
def condInvalidEpisodeDuration (v : JSVal) : Bool :=
  let d := v.getField "episodeDuration"
  (!d.isUndef && !d.isNull) && (!d.isNumber || d.leQ 0)

/-- Claim condition 5: `episodes > 10000`. -/
def condEpisodeCountTooLarge (v : JSVal) : Bool :=
  (v.getField "episodes").gtQ 10000

/-- Claim condition 6: `episodeDuration > 1440`. -/
def condEpisodeDurationTooLarge (v : JSVal) : Bool :=
  (v.getField "episodeDuration").gtQ 1440

/-- The claim's validation sequence (with the amended condition 4): the
first condition that holds, in the claim's fixed order. -/
def specFirstFailing (v : JSVal) : Option ValidationError :=
  if condInvalidInput v then some .InvalidInput
  else if condInvalidEpisodeCount v then some .InvalidEpisodeCount
  else if condZeroEpisodes v then some .ZeroEpisodes
  else if condInvalidEpisodeDuration v then some .InvalidEpisodeDuration
  else if condEpisodeCountTooLarge v then some .EpisodeCountTooLarge
  else if condEpisodeDurationTooLarge v then some .EpisodeDurationTooLarge
  else none

/-! ### Theorems -/

/-- C9: starting from a fresh session with one registered observer, the
sequence `updateAnime({episodes:26, duration:24})`,
`setIncludeOpening(true)`, `setIncludeEnding(true)`,
`setIncludeOpening(false)` delivers exactly four mutation-triggered
notifications whose results format, in order, as "10 hours 24 minutes",
"11 hours 3 minutes", "11 hours 42 minutes", "11 hours 3 minutes". -/
theorem session_scenario_notifications :
    ((runOps (step (createTimeCalculator (.obj [])) (.addChangeListener 0)).1
        [.updateAnime (.obj [("episodes", .num (.fin 26)), ("duration", .num (.fin 24))]),
         .setIncludeOpening (.bool true),
         .setIncludeEnding (.bool true),
         .setIncludeOpening (.bool false)]).2.map
      (fun n => (n.result.map TimeCalculationResult.formattedTime).getD "<none>")) =
    ["10 hours 24 minutes", "11 hours 3 minutes", "11 hours 42 minutes",
     "11 hours 3 minutes"] := by
  decide

/-- C10: the constructor performs no computation: whatever the initial
options (even with a positive episode count), the fresh session's result
accessor returns the "no result" sentinel and no observer exists to have
been notified (`createTimeCalculator` emits no notification and never
invokes `calculateWatchTime`, as its definition shows); a result first
appears after a mutating operation or a manual recompute. -/
theorem constructor_no_computation :
    (∀ v : JSVal, getCurrentResult (createTimeCalculator v) = none ∧
      (createTimeCalculator v).changeListeners = []) ∧
    getCurrentResult (createTimeCalculator
      (.obj [("episodes", .num (.fin 26)), ("episodeDuration", .num (.fin 24))])) = none ∧
    ((step (createTimeCalculator
        (.obj [("episodes", .num (.fin 26)), ("episodeDuration", .num (.fin 24))]))
      .recalculateOp).1.currentResult).isSome = true := by
  exact ⟨fun v => ⟨rfl, rfl⟩, rfl, by decide⟩

/-- C2 counterexample: `+Infinity` is an input that is not a finite number,
yet `formatTime` renders it as "Infinity hours", not "0 minutes" — the
claim as stated is false at `Infinity`. -/
theorem formatTime_posInf_counterexample :
    formatTime (.num .posInf) = "Infinity hours" ∧
    formatTime (.num .posInf) ≠ "0 minutes" := by
  exact ⟨rfl, by decide⟩

/-- C2 (amended): `formatTime` is total (it is a total Lean function over
all `JSVal` inputs), and every input that is not a number, is `NaN`, or
compares `< 0` (including `-Infinity`) renders "0 minutes"; the one
non-finite exception is `+Infinity`, which renders "Infinity hours". -/
theorem formatTime_total_amended :
    (∀ v : JSVal,
      v.isNumber = false ∨ v = .num .nan ∨ v.ltQ 0 = true →
      formatTime v = "0 minutes") ∧
    formatTime (.num .posInf) = "Infinity hours" := by
  refine ⟨fun v h => ?_, rfl⟩
  rcases h with h | h | h
  · cases v <;> first | rfl | exact absurd h (by simp [JSVal.isNumber])
  · subst h; rfl
  · have : formatTime v = if ¬ v.isNumber ∨ v.ltQ 0 then "0 minutes" else _ := rfl
    unfold formatTime
    rw [if_pos (Or.inr h)]

/-- C2 witness: the amended totality statement applied at `null`. -/
theorem formatTime_total_amended_witness :
    (JSVal.null.isNumber = false ∨ JSVal.null = .num .nan ∨ JSVal.null.ltQ 0 = true) ∧
    formatTime .null = "0 minutes" :=
  ⟨Or.inl rfl, formatTime_total_amended.1 .null (Or.inl rfl)⟩

/-- C8: registering an observer appends it to the ordered observer list
and synchronously (within the registration step, before any further
mutation) delivers exactly one notification — to the new observer only —
carrying the session's current result and options, and changes nothing
else of the session state. -/
theorem addChangeListener_spec (s : SessionState) (l : ℕ) :
    (step s (.addChangeListener l)).1.changeListeners = s.changeListeners ++ [l] ∧
    (step s (.addChangeListener l)).2.1 =
      [{ listener := l, result := s.currentResult, options := s.currentOptions,
         errMsg := none }] ∧
    (step s (.addChangeListener l)).1.currentResult = s.currentResult ∧
    (step s (.addChangeListener l)).1.currentOptions = s.currentOptions :=
  ⟨rfl, rfl, rfl, rfl⟩

/-- C3: for numeric `1 ≤ episodes ≤ 10000` and `0 < episodeDuration ≤ 1440`,
`calculateWatchTime` succeeds and `totalMinutes` is exactly
`episodes*episodeDuration + (includeOpening ? episodes*1.5 : 0) +
(includeEnding ? episodes*1.5 : 0)`, with `baseMinutes`, `openingMinutes`
and `endingMinutes` the three respective summands. -/
theorem calculateWatchTime_total_formula (e d : ℚ) (io ie : Bool)
    (h1 : 1 ≤ e) (h2 : e ≤ 10000) (h3 : 0 < d) (h4 : d ≤ 1440) :
    ∃ r, calculateWatchTime (mkOptions e d io ie) = .ok r ∧
      r.baseMinutes = .fin (e * d) ∧
      r.openingMinutes = .fin (if io then e * (3/2) else 0) ∧
      r.endingMinutes = .fin (if ie then e * (3/2) else 0) ∧
      r.totalMinutes = .fin (e * d + (if io then e * (3/2) else 0) +
        (if ie then e * (3/2) else 0)) := by
  have hE : (mkOptions e d io ie).getField "episodes" = .num (.fin e) := rfl
  have hD : (mkOptions e d io ie).getField "episodeDuration" = .num (.fin d) := rfl
  have hO : (mkOptions e d io ie).getField "includeOpening" = .bool io := rfl
  have hI : (mkOptions e d io ie).getField "includeEnding" = .bool ie := rfl
  have hv : validateCalculationInput (mkOptions e d io ie) = none := by
    unfold validateCalculationInput
    rw [hE, hD]
    simp only [mkOptions, JSVal.truthy, JSVal.isObject, JSVal.isNumber,
      JSVal.isUndef, JSVal.isNull, JSVal.ltQ, JSVal.leQ, JSVal.gtQ, JSVal.eqQ,
      JSVal.toNumber, JSNum.ltQ, JSNum.leQ, JSNum.gtQ, JSNum.eqQ]
    have he0 : ¬ e < 0 := by linarith
    have hee : e ≠ 0 := by linarith
    have hd0 : ¬ d ≤ 0 := by linarith
    have heL : ¬ 10000 < e := by linarith
    have hdL : ¬ 1440 < d := by linarith
    simp [he0, hee, hd0, heL, hdL]
  unfold calculateWatchTime
  rw [hv]
  simp only [hE, hD, hO, hI, JSVal.isNumber, JSVal.isUndef, JSVal.gtQ,
    JSVal.toNumber, JSNum.gtQ, JSVal.truthy]
  have hd0 : (decide (0 < d)) = true := by simp [h3]
  refine ⟨_, rfl, ?_, ?_, ?_, ?_⟩
  all_goals
    simp only [hd0, decide_True, Bool.and_self, if_true, true_and,
      Bool.ite_eq_true_distrib]
    cases io <;> cases ie <;>
      simp [JSNum.mul, JSNum.add, OPENING_THEME_DURATION, ENDING_THEME_DURATION]

/-- The JS `Math.round` of an integer cast to ℚ is that integer. -/
theorem floor_add_half_intCast (z : ℤ) : ((z : ℚ) + 1/2).floor = z := by
  have h1 : ((z : ℚ) + 1/2).floor = ⌊(z : ℚ) + 1/2⌋ := rfl
  rw [h1, add_comm, Int.floor_add_int]
  norm_num

/-- C7: the rounding law — `formatTime x` equals `formatTime (round x)`
for every finite numeric input, where rounding is half-up to the nearest
whole minute; with the claim's concrete instances `formatTime 59.5 =
"1 hour"` and `formatTime 90.7 = "1 hour 31 minutes"`. -/
theorem formatTime_round_law :
    (∀ q : ℚ, formatTime (.num (.fin q)) =
      formatTime (.num (.fin (⌊q + 1/2⌋ : ℤ)))) ∧
    formatTime (.num (.fin (119/2))) = "1 hour" ∧
    formatTime (.num (.fin (907/10))) = "1 hour 31 minutes" := by
  refine ⟨fun q => ?_, by decide, by decide⟩
  have hbridge : (⌊q + 1/2⌋ : ℤ) = (q + 1/2).floor := rfl
  by_cases hq : q < 0
  · have hL : formatTime (.num (.fin q)) = "0 minutes" := by
      unfold formatTime
      rw [if_pos]
      exact Or.inr (by simp [JSVal.ltQ, JSVal.toNumber, JSNum.ltQ, hq])
    rw [hL]
    have hr0 : ⌊q + 1/2⌋ ≤ 0 := by
      have : ⌊q + 1/2⌋ < 1 := Int.floor_lt.2 (by push_cast; linarith)
      omega
    rcases lt_or_eq_of_le hr0 with h | h
    · symm
      unfold formatTime
      rw [if_pos]
      exact Or.inr (by
        simp only [JSVal.ltQ, JSVal.toNumber, JSNum.ltQ, decide_eq_true_eq]
        exact_mod_cast h)
    · rw [h]
      decide
  · push_neg at hq
    have key : (((⌊q + 1/2⌋ : ℤ) : ℚ) + 1/2).floor = (q + 1/2).floor := by
      rw [floor_add_half_intCast, hbridge]
    have hr0 : (0 : ℤ) ≤ ⌊q + 1/2⌋ := Int.floor_nonneg.2 (by linarith)
    have hround : (JSNum.fin q).round = (JSNum.fin ((⌊q + 1/2⌋ : ℤ) : ℚ)).round := by
      simp only [JSNum.round, hbridge, floor_add_half_intCast]
    have hL : formatTime (.num (.fin q)) = formatRounded ((JSNum.fin q).round) := by
      unfold formatTime
      rw [if_neg]
      · rfl
      · intro hcon
        rcases hcon with h | h
        · exact h rfl
        · simp only [JSVal.ltQ, JSVal.toNumber, JSNum.ltQ, decide_eq_true_eq] at h
          linarith
    have hR : formatTime (.num (.fin ((⌊q + 1/2⌋ : ℤ) : ℚ))) =
        formatRounded ((JSNum.fin ((⌊q + 1/2⌋ : ℤ) : ℚ)).round) := by
      unfold formatTime
      rw [if_neg]
      · rfl
      · intro hcon
        rcases hcon with h | h
        · exact h rfl
        · simp only [JSVal.ltQ, JSVal.toNumber, JSNum.ltQ, decide_eq_true_eq] at h
          have hcast : (⌊q + 1/2⌋ : ℤ) < 0 := by exact_mod_cast h
          omega
    rw [hL, hR, hround]

/-- `calculateWatchTime` fails exactly when validation fails, with the
validation error as its message (the throw at source lines 133–136). -/
theorem calcFailure_eq_validate (v : JSVal) :
    calcFailure v = validateCalculationInput v := by
  unfold calcFailure calculateWatchTime
  cases h : validateCalculationInput v <;> simp [h]

/-- The code's validation chain computes the first failing condition of the
(amended) claim sequence, mapped to its message. -/
theorem validate_eq_specFirstFailing (v : JSVal) :
    validateCalculationInput v = (specFirstFailing v).map ValidationError.message := by
  cases v <;>
    simp only [validateCalculationInput, specFirstFailing, condInvalidInput,
      condInvalidEpisodeCount, condZeroEpisodes, condInvalidEpisodeDuration,
      condEpisodeCountTooLarge, condEpisodeDurationTooLarge,
      JSVal.truthy, JSVal.isObject, Bool.not_true, Bool.not_false,
      Bool.and_self, Bool.and_true, Bool.true_and, Bool.and_false,
      Bool.false_and] <;>
    first
      | rfl
      | (split_ifs <;> rfl)

/-- C4 counterexample: for `{episodes: 1, episodeDuration: NaN}` the
duration is present and is not a positive number (the claim's fourth
condition holds), yet `calculateWatchTime` does not fail — `NaN <= 0` is
false in the code's check, so a NaN duration is accepted (and later
replaced by the default). The claim's "fails if and only if" is false
here. -/
theorem validation_nan_duration_counterexample :
    condDurationNotPositiveNumber (.obj [("episodes", .num (.fin 1)),
      ("episodeDuration", .num .nan)]) = true ∧
    calcFailure (.obj [("episodes", .num (.fin 1)),
      ("episodeDuration", .num .nan)]) = none :=
  ⟨rfl, rfl⟩

/-- C4 (amended): `calculateWatchTime` fails if and only if one of the six
conditions holds, with condition 4 amended to "episodeDuration present and
either not a number or `≤ 0`" (so NaN durations are accepted); when several
conditions hold the reported failure is the first in the fixed order, as
computed by `specFirstFailing`; the six messages are pairwise distinct; and
in particular for `episodes = 20000` with `episodeDuration = -5` the
duration error wins over the episode-ceiling error. -/
theorem calculateWatchTime_validation_order :
    (∀ v : JSVal, calcFailure v = (specFirstFailing v).map ValidationError.message) ∧
    List.Pairwise (fun a b => a ≠ b)
      ([ValidationError.InvalidInput, .InvalidEpisodeCount, .ZeroEpisodes,
        .InvalidEpisodeDuration, .EpisodeCountTooLarge,
        .EpisodeDurationTooLarge].map ValidationError.message) ∧
    specFirstFailing (.obj [("episodes", .num (.fin 20000)),
      ("episodeDuration", .num (.fin (-5)))]) = some .InvalidEpisodeDuration ∧
    calcFailure (.obj [("episodes", .num (.fin 20000)),
      ("episodeDuration", .num (.fin (-5)))]) =
      some "Episode duration must be a positive number" := by
  refine ⟨fun v => ?_, by decide, by decide, rfl⟩
  rw [calcFailure_eq_validate, validate_eq_specFirstFailing]

/-- `recalculate` never changes the current options. -/
theorem recalculate_currentOptions (s : SessionState) :
    (recalculate s).1.currentOptions = s.currentOptions := by
  unfold recalculate
  split_ifs
  · cases h : calculateWatchTime s.currentOptions.toVal <;> simp [h]
  · rfl

/-- `recalculate` never changes the listener list. -/
theorem recalculate_changeListeners (s : SessionState) :
    (recalculate s).1.changeListeners = s.changeListeners := by
  unfold recalculate
  split_ifs
  · cases h : calculateWatchTime s.currentOptions.toVal <;> simp [h]
  · rfl

/-- With a non-positive (or non-numeric) episode count, `recalculate` takes
the sentinel path: no calculation, result `none`, notifications without an
error message. -/
theorem recalculate_nonpos (s : SessionState)
    (h : s.currentOptions.episodes.gtQ 0 = false) :
    (recalculate s).1.currentResult = none ∧
    (recalculate s).2.2 = false ∧
    (recalculate s).2.1 = s.changeListeners.map (fun l =>
      { listener := l, result := none, options := s.currentOptions,
        errMsg := none }) := by
  unfold recalculate
  rw [if_neg (by simp [h])]
  exact ⟨rfl, rfl, rfl⟩

/-- The option mutation of an operation changes neither the cached result
nor the listener list. -/
theorem applyMutation_preserves (s : SessionState) (op : SessionOp) :
    (applyMutation s op).currentResult = s.currentResult ∧
    (applyMutation s op).changeListeners = s.changeListeners := by
  cases op <;> exact ⟨rfl, rfl⟩

/-- A recalculation-triggering operation is exactly its option mutation
followed by `recalculate`. -/
theorem step_eq_recalculate (s : SessionState) (op : SessionOp)
    (htrig : opTriggersRecalc op = true) :
    step s op = recalculate (applyMutation s op) := by
  cases op with
  | updateAnime d =>
      simp only [step]
      rw [if_pos]
      simpa [opTriggersRecalc, Bool.and_eq_true] using htrig
  | setIncludeOpening i => rfl
  | setIncludeEnding i => rfl
  | setThemeInclusion io ie => rfl
  | recalculateOp => rfl
  | reset => simp [opTriggersRecalc] at htrig
  | addChangeListener l => simp [opTriggersRecalc] at htrig
  | removeChangeListener l => simp [opTriggersRecalc] at htrig

/-- One-step preservation of the sentinel invariant: if a state satisfies
"non-positive episodes implies no result", so does its successor. -/
theorem step_preserves_nonpos_invariant (s : SessionState) (op : SessionOp)
    (hres : s.currentOptions.episodes.gtQ 0 = false → s.currentResult = none)
    (h : (step s op).1.currentOptions.episodes.gtQ 0 = false) :
    (step s op).1.currentResult = none := by
  by_cases htrig : opTriggersRecalc op = true
  · rw [step_eq_recalculate s op htrig] at h ⊢
    rw [recalculate_currentOptions] at h
    exact (recalculate_nonpos _ h).1
  · cases op with
    | updateAnime d =>
        have hc : ¬ (d.truthy = true ∧ d.isObject = true) := by
          intro hc
          exact htrig (by simp [opTriggersRecalc, Bool.and_eq_true, hc.1, hc.2])
        simp only [step] at h ⊢
        rw [if_neg hc] at h ⊢
        exact hres h
    | reset => rfl
    | addChangeListener l => exact hres h
    | removeChangeListener l => exact hres h
    | setIncludeOpening i => simp [opTriggersRecalc] at htrig
    | setIncludeEnding i => simp [opTriggersRecalc] at htrig
    | setThemeInclusion io ie => simp [opTriggersRecalc] at htrig
    | recalculateOp => simp [opTriggersRecalc] at htrig

/-- Sentinel invariant for all reachable states: a session whose stored
episode count does not compare `> 0` holds the "no result" sentinel. -/
theorem reachable_nonpos_no_result (s : SessionState) (hs : Reachable s)
    (h : s.currentOptions.episodes.gtQ 0 = false) :
    s.currentResult = none := by
  induction hs with
  | init v => rfl
  | step s' op hs' ih => exact step_preserves_nonpos_invariant s' op ih h

/-- C5: whenever the options after a session operation have an episode
count that does not compare `> 0`, the operation leaves the "no result"
sentinel, never invokes `calculateWatchTime`, and every notification it
delivers carries no error message (no third argument). -/
theorem session_zero_episodes_no_error (s : SessionState) (op : SessionOp)
    (hs : Reachable s)
    (h : (step s op).1.currentOptions.episodes.gtQ 0 = false) :
    (step s op).1.currentResult = none ∧
    (step s op).2.2 = false ∧
    ∀ n ∈ (step s op).2.1, n.errMsg = none := by
  have h22 : (step s op).2.2 = false := by
    by_cases htrig : opTriggersRecalc op = true
    · rw [step_eq_recalculate s op htrig] at h ⊢
      rw [recalculate_currentOptions] at h
      exact (recalculate_nonpos _ h).2.1
    · cases op with
      | updateAnime d =>
          simp only [step]
          split_ifs with hc
          · exact absurd (by simp [opTriggersRecalc, Bool.and_eq_true, hc.1, hc.2]) htrig
          · rfl
      | reset => rfl
      | addChangeListener l => rfl
      | removeChangeListener l => rfl
      | setIncludeOpening i => simp [opTriggersRecalc] at htrig
      | setIncludeEnding i => simp [opTriggersRecalc] at htrig
      | setThemeInclusion io ie => simp [opTriggersRecalc] at htrig
      | recalculateOp => simp [opTriggersRecalc] at htrig
  have hmsg : ∀ n ∈ (step s op).2.1, n.errMsg = none := by
    by_cases htrig : opTriggersRecalc op = true
    · rw [step_eq_recalculate s op htrig] at h ⊢
      rw [recalculate_currentOptions] at h
      rw [(recalculate_nonpos _ h).2.2]
      intro n hn
      rcases List.mem_map.1 hn with ⟨l, _, rfl⟩
      rfl
    · cases op with
      | updateAnime d =>
          simp only [step]
          split_ifs with hc
          · exact absurd (by simp [opTriggersRecalc, Bool.and_eq_true, hc.1, hc.2]) htrig
          · intro n hn; simp at hn
      | reset =>
          intro n hn
          rcases List.mem_map.1 hn with ⟨l, _, rfl⟩
          rfl
      | addChangeListener l =>
          intro n hn
          rcases List.mem_singleton.1 hn with rfl
          rfl
      | removeChangeListener l => intro n hn; simp [step] at hn
      | setIncludeOpening i => simp [opTriggersRecalc] at htrig
      | setIncludeEnding i => simp [opTriggersRecalc] at htrig
      | setThemeInclusion io ie => simp [opTriggersRecalc] at htrig
      | recalculateOp => simp [opTriggersRecalc] at htrig
  exact ⟨reachable_nonpos_no_result _ (Reachable.step s op hs) h, h22, hmsg⟩

/-- C5 witness: the zero-episodes path at a fresh session and
`updateAnime({episodes: 0})`. -/
theorem session_zero_episodes_no_error_witness :
    ((step (createTimeCalculator (.obj []))
        (.updateAnime (.obj [("episodes", .num (.fin 0))]))).1.currentOptions.episodes.gtQ 0
      = false) ∧
    (step (createTimeCalculator (.obj []))
        (.updateAnime (.obj [("episodes", .num (.fin 0))]))).1.currentResult = none ∧
    (step (createTimeCalculator (.obj []))
        (.updateAnime (.obj [("episodes", .num (.fin 0))]))).2.2 = false ∧
    ∀ n ∈ (step (createTimeCalculator (.obj []))
        (.updateAnime (.obj [("episodes", .num (.fin 0))]))).2.1, n.errMsg = none :=
  ⟨rfl,
    session_zero_episodes_no_error (createTimeCalculator (.obj []))
      (.updateAnime (.obj [("episodes", .num (.fin 0))]))
      (Reachable.init (.obj [])) rfl⟩

/-- C6: when a recalculation-triggering operation leaves options whose
episode count compares `> 0` but on which `calculateWatchTime` fails, the
operation still returns normally (the step function is total), sets the
current result to the "no result" sentinel, and notifies every registered
observer, in order, with the sentinel, the post-mutation options, and the
failure's message as the third argument. -/
theorem session_error_containment (s : SessionState) (op : SessionOp)
    (msg : String)
    (htrig : opTriggersRecalc op = true)
    (hpos : (applyMutation s op).currentOptions.episodes.gtQ 0 = true)
    (hfail : calculateWatchTime (applyMutation s op).currentOptions.toVal =
      .error msg) :
    (step s op).1.currentResult = none ∧
    (step s op).2.1 = s.changeListeners.map (fun l =>
      { listener := l, result := none,
        options := (applyMutation s op).currentOptions,
        errMsg := some msg }) := by
  rw [step_eq_recalculate s op htrig]
  have hls : (applyMutation s op).changeListeners = s.changeListeners :=
    (applyMutation_preserves s op).2
  unfold recalculate
  rw [if_pos hpos, hfail, hls]
  exact ⟨rfl, rfl⟩

/-- C6 witness: error containment at a fresh session with one observer and
`updateAnime({episodes: 10001})`, which exceeds the episode ceiling. -/
theorem session_error_containment_witness :
    (step (step (createTimeCalculator (.obj [])) (.addChangeListener 0)).1
        (.updateAnime (.obj [("episodes", .num (.fin 10001))]))).1.currentResult
      = none ∧
    (step (step (createTimeCalculator (.obj [])) (.addChangeListener 0)).1
        (.updateAnime (.obj [("episodes", .num (.fin 10001))]))).2.1 =
      (step (createTimeCalculator (.obj [])) (.addChangeListener 0)).1.changeListeners.map
        (fun l =>
          { listener := l, result := none,
            options := (applyMutation
              (step (createTimeCalculator (.obj [])) (.addChangeListener 0)).1
              (.updateAnime (.obj [("episodes", .num (.fin 10001))]))).currentOptions,
            errMsg := some "Episode count exceeds reasonable limit (10,000 episodes)" }) :=
  session_error_containment
    (step (createTimeCalculator (.obj [])) (.addChangeListener 0)).1
    (.updateAnime (.obj [("episodes", .num (.fin 10001))]))
    "Episode count exceeds reasonable limit (10,000 episodes)"
    rfl rfl rfl

/-- C1 counterexample: after `updateAnime({episodes: -5, duration: 24})` on
a fresh session, the stored `episodes` is `-5` — a negative number that was
never validated, is not a last-known-good value, and is not the baseline
`0` — so the claimed invariant is false. -/
theorem session_stores_unvalidated_counterexample :
    (step (createTimeCalculator (.obj []))
        (.updateAnime (.obj [("episodes", .num (.fin (-5))),
          ("duration", .num (.fin 24))]))).1.currentOptions.episodes =
      .num (.fin (-5)) ∧
    ((-5 : ℚ) < 0) ∧
    (-5 : ℚ) ≠ 0 := by
  refine ⟨rfl, by norm_num, by norm_num⟩

/-- C1 (amended): the session stores `updateAnime`'s supplied values
without validating them — for any truthy object argument, the stored
`episodes` is the supplied value (falsy values map to `0`) and the stored
`episodeDuration` is the supplied `duration` (falsy values map to the
default 24), even when negative, non-numeric or over the limits; a failed
calculation resets only `currentResult` to the sentinel while
`currentOptions` keeps the values just stored. -/
theorem updateAnime_stores_raw_values (s : SessionState) (d : JSVal)
    (hobj : d.truthy = true ∧ d.isObject = true) :
    (step s (.updateAnime d)).1.currentOptions.episodes =
      (d.getField "episodes").orElse (.num (.fin 0)) ∧
    (step s (.updateAnime d)).1.currentOptions.episodeDuration =
      (d.getField "duration").orElse (.num (.fin DEFAULT_EPISODE_DURATION)) ∧
    (∀ msg : String,
      (applyMutation s (.updateAnime d)).currentOptions.episodes.gtQ 0 = true →
      calculateWatchTime (applyMutation s (.updateAnime d)).currentOptions.toVal =
        .error msg →
      (step s (.updateAnime d)).1.currentResult = none) := by
  have htrig : opTriggersRecalc (.updateAnime d) = true := by
    simp [opTriggersRecalc, Bool.and_eq_true, hobj.1, hobj.2]
  rw [step_eq_recalculate s (.updateAnime d) htrig, recalculate_currentOptions]
  refine ⟨rfl, rfl, fun msg hpos hfail => ?_⟩
  unfold recalculate
  rw [if_pos hpos, hfail]

/-- C1 witness: the raw-storage description at the `-5` example. -/
theorem updateAnime_stores_raw_values_witness :
    ((JSVal.obj [("episodes", .num (.fin (-5))), ("duration", .num (.fin 24))]).truthy
        = true ∧
      (JSVal.obj [("episodes", .num (.fin (-5))),
        ("duration", .num (.fin 24))]).isObject = true) ∧
    (step (createTimeCalculator (.obj []))
        (.updateAnime (.obj [("episodes", .num (.fin (-5))),
          ("duration", .num (.fin 24))]))).1.currentOptions.episodes =
      ((JSVal.obj [("episodes", .num (.fin (-5))),
        ("duration", .num (.fin 24))]).getField "episodes").orElse (.num (.fin 0)) :=
  ⟨⟨rfl, rfl⟩,
    (updateAnime_stores_raw_values (createTimeCalculator (.obj []))
      (.obj [("episodes", .num (.fin (-5))), ("duration", .num (.fin 24))])
      ⟨rfl, rfl⟩).1⟩

/-- C3 witness: the total formula at `episodes = 12`, `duration = 24`,
both theme flags on. -/
theorem calculateWatchTime_total_formula_witness :
    (1 ≤ (12 : ℚ) ∧ (12 : ℚ) ≤ 10000 ∧ 0 < (24 : ℚ) ∧ (24 : ℚ) ≤ 1440) ∧
    ∃ r, calculateWatchTime (mkOptions 12 24 true true) = .ok r ∧
      r.baseMinutes = .fin (12 * 24) ∧
      r.openingMinutes = .fin (if true then 12 * (3/2) else 0) ∧
      r.endingMinutes = .fin (if true then 12 * (3/2) else 0) ∧
      r.totalMinutes = .fin (12 * 24 + (if true then 12 * (3/2) else 0) +
        (if true then 12 * (3/2) else 0)) :=
  ⟨⟨by norm_num, by norm_num, by norm_num, by norm_num⟩,
    calculateWatchTime_total_formula 12 24 true true
      (by norm_num) (by norm_num) (by norm_num) (by norm_num)⟩
